import Mathlib

/-!
Verification of the students-enrollments application core
(`src/database.py`, `src/app.py`) against its specification.

The persistence layer is SQLite accessed through `sqlite3`; we model it
shallowly:
* a table is a `List` of rows kept in rowid (insertion) order, which is the
  order a `SELECT` without `ORDER BY` returns and `fetchall` observes;
* `fetchone` is `List.find?`;
* SQL `REAL` columns are modelled by `Rat` (exact arithmetic on the decimal
  score values the application stores);
* a nullable integer column is `Option Nat`; Python truthiness of such a
  column (`if not row[col]`) treats both `NULL` and `0` as falsy;
* Python strings are modelled as `List Char` where their contents matter
  (name normalization); ASCII whitespace and case are modelled;
* an exception raised by the storage layer during a cursor block is modelled
  by a boolean fault flag on each operation: when the flag is set the block
  raises, and functions written with `try/except` in the source return their
  fallback value, while functions without a handler propagate the error
  (`Except.error`).
-/

/-- Python string, modelled as a list of characters. -/
abbrev PyStr := List Char

/-- ASCII whitespace, the separators `str.split()` / `str.strip()` use
(restricted to ASCII, which covers the application's data). -/
def isPySpace (c : Char) : Bool :=
  c == ' ' || c == '\t' || c == '\n' || c == '\r' || c == '\x0b' || c == '\x0c'

/-- Python `str.strip()`: drop leading and trailing whitespace. -/
def pyStrip (l : PyStr) : PyStr :=
  ((l.dropWhile isPySpace).reverse.dropWhile isPySpace).reverse

/-- Helper for `pySplit`: walk the string accumulating the current word
(in reverse). -/
def splitAux : PyStr → List Char → List PyStr
  | [], acc => if acc.isEmpty then [] else [acc.reverse]
  | c :: cs, acc =>
    if isPySpace c then
      if acc.isEmpty then splitAux cs []
      else acc.reverse :: splitAux cs []
    else splitAux cs (c :: acc)

/-- Python `str.split()` with no argument: split on runs of whitespace,
discarding empty words (so leading/trailing whitespace produces nothing). -/
def pySplit (l : PyStr) : List PyStr := splitAux l []

/-- Python `str.capitalize()`: first character uppercased, the rest
lowercased (ASCII model). -/
def pyCapitalize : PyStr → PyStr
  | [] => []
  | c :: cs => c.toUpper :: cs.map Char.toLower

/-- Python `" ".join(ws)`. -/
def joinSpace : List PyStr → PyStr
  | [] => []
  | [w] => w
  | w :: ws => w ++ ' ' :: joinSpace ws

/-- `capitalize_name` from `src/database.py`:
`" ".join(word.capitalize() for word in name.strip().split())`,
returning the input unchanged when it is empty (Python falsiness guard). -/
def capitalize_name (name : PyStr) : PyStr :=
  if name.isEmpty then name
  else joinSpace ((pySplit (pyStrip name)).map pyCapitalize)

/-- A row of the `students` table / the `Student` class.  Scalar profile
fields are carried verbatim; the constructor applies `capitalize_name` to
`name` and `mother_name` (see `mkStudent`). -/
structure Student where
  id : Option Nat
  name : PyStr
  gender : PyStr
  nationality : PyStr
  birthday : PyStr
  ethnicity : PyStr
  province : PyStr
  unified_card_id : PyStr
  phone : PyStr
  faculty : PyStr
  major : PyStr
  year : Option Int
  study_schedule : PyStr
  years_failed : Int
  admission_type : PyStr
  admission_session : PyStr
  school_study_domain : PyStr
  school_grad_session : PyStr
  school_results : Rat
  mother_name : PyStr
  father_phone : PyStr
  is_disabled : Int
  social_care_network : Int
  disability : PyStr
  disability_cause : PyStr
deriving Repr, DecidableEq

/-- `Student.__init__`: stores all fields, normalizing `name` and
`mother_name` through `capitalize_name`. -/
def mkStudent (id : Option Nat) (name gender nationality birthday ethnicity
    province unified_card_id phone faculty major : PyStr) (year : Option Int)
    (study_schedule : PyStr) (years_failed : Int)
    (admission_type admission_session school_study_domain
      school_grad_session : PyStr) (school_results : Rat)
    (mother_name father_phone : PyStr) (is_disabled social_care_network : Int)
    (disability disability_cause : PyStr) : Student :=
  { id := id
    name := capitalize_name name
    gender := gender
    nationality := nationality
    birthday := birthday
    ethnicity := ethnicity
    province := province
    unified_card_id := unified_card_id
    phone := phone
    faculty := faculty
    major := major
    year := year
    study_schedule := study_schedule
    years_failed := years_failed
    admission_type := admission_type
    admission_session := admission_session
    school_study_domain := school_study_domain
    school_grad_session := school_grad_session
    school_results := school_results
    mother_name := capitalize_name mother_name
    father_phone := father_phone
    is_disabled := is_disabled
    social_care_network := social_care_network
    disability := disability
    disability_cause := disability_cause }

/-- A row of the `subjects` table / the `Subject` class.  `prerequisite` is a
nullable foreign key to another subject. -/
structure Subject where
  id : Nat
  semester : Int
  code : String
  name : String
  credit_h : Int
  structure_descr : String
  prerequisite : Option Nat
deriving Repr, DecidableEq

/-- A row of the `grades` table / the `Grade` class.  The table's primary key
is `(student_id, subject_id, semester)`; `last_updated` is a timestamp
modelled as an abstract `Option Nat`. -/
structure Grade where
  student_id : Nat
  subject_id : Nat
  semester : Int
  coursework : Rat
  final : Rat
  attended_final : Bool
  is_finalized : Bool
  last_updated : Option Nat
deriving Repr, DecidableEq

/-- `Grade.is_failed` from `src/database.py`: the derived outcome of a grade,
one of `"no"`, `"coursework"`, `"final_attendance"`, `"final"`.  Note that a
grade that is not finalized yields `"no"`, the same token as a pass. -/
def Grade.is_failed (g : Grade) : String :=
  if g.is_finalized = false then "no"
  else if g.coursework < 13 then "coursework"
  else if g.attended_final = false then "final_attendance"
  else if g.final + g.coursework < 50 then "final"
  else "no"

/-- The database state: the three tables created by `db_init`, each as a list
of rows in rowid (insertion) order. -/
structure DB where
  students : List Student
  subjects : List Subject
  grades : List Grade
deriving Repr, DecidableEq

/-- The error value standing for a raw `sqlite3` exception escaping a cursor
block that has no `try/except` handler. -/
def storeErrorMsg : String := "StoreError"

/-- `db_get_subject_by_id`: `SELECT * FROM subjects WHERE id = ?`, `fetchone`.
The source wraps the query in `try/except` returning `None`, so a store
fault yields `none`. -/
def db_get_subject_by_id (fault : Bool) (db : DB) (subject_id : Nat) :
    Option Subject :=
  if fault then none
  else db.subjects.find? (fun x => x.id == subject_id)

/-- Does a row of the `subjects` table carry this id?  Used to model the
`JOIN subjects ON grades.subject_id = subjects.id` clause, which keeps a
grade row only when its subject exists. -/
def subjectExists (db : DB) (subject_id : Nat) : Bool :=
  db.subjects.any (fun x => x.id == subject_id)

/-- The row set of the query inside `db_check_prerequisite`:
`SELECT grades.* FROM grades JOIN subjects ON grades.subject_id = subjects.id
WHERE grades.student_id = ? AND grades.subject_id = ? AND grades.semester < ?`,
in table order. -/
def prereqRows (db : DB) (student_id pid : Nat) (semester : Int) :
    List Grade :=
  db.grades.filter (fun g =>
    subjectExists db g.subject_id && g.student_id == student_id
      && g.subject_id == pid && decide (g.semester < semester))

/-- `db_check_prerequisite` from `src/database.py`.  Looks up the subject
(`db_get_subject_by_id` swallows store faults, hence the first flag); with no
subject or a falsy prerequisite column it returns `True`.  Otherwise it runs
the grade query — this block has no `try/except`, so a store fault there
(second flag) escapes as a raw error — and if no row matches returns `False`,
else builds a `Grade` from the first returned row and returns
`is_failed() == "no"`. -/
def db_check_prerequisite (lookupFault queryFault : Bool) (db : DB)
    (student_id subject_id : Nat) (semester : Int) : Except String Bool :=
  match db_get_subject_by_id lookupFault db subject_id with
  | none => .ok true
  | some subj =>
    match subj.prerequisite with
    | none => .ok true
    | some pid =>
      if pid = 0 then .ok true
      else if queryFault then .error storeErrorMsg
      else
        match prereqRows db student_id pid semester with
        | [] => .ok false
        | g :: _ => .ok (g.is_failed == "no")

/-- The subjects whose `prerequisite` column equals the given subject id:
`SELECT * FROM subjects WHERE prerequisite = ?` (a `NULL` column never
matches). -/
def dependentSubjects (db : DB) (subject_id : Nat) : List Subject :=
  db.subjects.filter (fun x => x.prerequisite == some subject_id)

/-- The row set of the second query inside
`db_check_is_prerequisite_for_later_semester`:
the student's grades for any dependent subject at a strictly later
semester. -/
def laterDependentGrades (db : DB) (student_id subject_id : Nat)
    (semester : Int) : List Grade :=
  let depIds := (dependentSubjects db subject_id).map (fun x => x.id)
  db.grades.filter (fun g =>
    g.student_id == student_id && depIds.contains g.subject_id
      && decide (semester < g.semester))

/-- `db_check_is_prerequisite_for_later_semester` from `src/database.py`.
No `try/except` anywhere in it: a store fault escapes as a raw error.
Returns `True` when the subject has no dependents, otherwise whether the
student has zero grades for a dependent subject at a later semester. -/
def db_check_is_prerequisite_for_later_semester (fault : Bool) (db : DB)
    (student_id subject_id : Nat) (semester : Int) : Except String Bool :=
  if fault then .error storeErrorMsg
  else if (dependentSubjects db subject_id).isEmpty then .ok true
  else .ok ((laterDependentGrades db student_id subject_id semester).length == 0)

/-- Does a grade row match the `(student_id, subject_id, semester)` primary
key triple? -/
def gradeKeyMatches (g : Grade) (student_id subject_id : Nat)
    (semester : Int) : Bool :=
  g.student_id == student_id && g.subject_id == subject_id
    && g.semester == semester

/-- `db_add_grade`: `INSERT INTO grades ...` inside `try/except`.  A store
fault or a violation of the `(student_id, subject_id, semester)` primary key
raises, which the handler converts to `False` after rollback; otherwise the
row is appended with the current timestamp `now`. -/
def db_add_grade (fault : Bool) (db : DB) (student_id subject_id : Nat)
    (semester : Int) (coursework final : Rat)
    (attended_final is_finalized : Bool) (now : Option Nat) : Bool × DB :=
  if fault then (false, db)
  else if db.grades.any (fun g => gradeKeyMatches g student_id subject_id semester)
    then (false, db)
  else
    (true, { db with grades := db.grades ++
      [{ student_id := student_id, subject_id := subject_id
         semester := semester, coursework := coursework, final := final
         attended_final := attended_final, is_finalized := is_finalized
         last_updated := now }] })

/-- `db_update_grade`: `UPDATE grades SET semester = ?, ...,
last_updated = CURRENT_TIMESTAMP WHERE student_id = ? AND subject_id = ?`
inside `try/except`.  The `WHERE` clause ignores `semester`.  When two or
more rows match, the update would give them identical primary-key triples,
so the statement aborts on the unique constraint and the handler returns
`False` after rollback; otherwise every matched row (zero or one) is
rewritten and the function returns `True` regardless of how many rows were
affected. -/
def db_update_grade (fault : Bool) (db : DB) (student_id subject_id : Nat)
    (semester : Int) (coursework final : Rat)
    (attended_final is_finalized : Bool) (now : Option Nat) : Bool × DB :=
  if fault then (false, db)
  else if 2 ≤ (db.grades.filter (fun g =>
      g.student_id == student_id && g.subject_id == subject_id)).length
    then (false, db)
  else
    (true, { db with grades := db.grades.map (fun g =>
      if g.student_id == student_id && g.subject_id == subject_id then
        { g with semester := semester, coursework := coursework
                 final := final, attended_final := attended_final
                 is_finalized := is_finalized, last_updated := now }
      else g) })

/-- `db_del_grade`: `DELETE FROM grades WHERE student_id = ? AND
subject_id = ? AND semester = ?` inside `try/except`.  Returns `True`
whether or not any row matched (the row count is never inspected). -/
def db_del_grade (fault : Bool) (db : DB) (student_id subject_id : Nat)
    (semester : Int) : Bool × DB :=
  if fault then (false, db)
  else
    (true, { db with grades := db.grades.filter (fun g =>
      !(gradeKeyMatches g student_id subject_id semester)) })

/-- `db_add_student`: `INSERT INTO students ...` inside `try/except`.  A
store fault or a violation of the `UNIQUE` constraints on `unified_card_id`
or `phone` raises, converted to `False`; otherwise the row is appended. -/
def db_add_student (fault : Bool) (db : DB) (s : Student) : Bool × DB :=
  if fault then (false, db)
  else if db.students.any (fun t =>
      t.unified_card_id == s.unified_card_id || t.phone == s.phone)
    then (false, db)
  else (true, { db with students := db.students ++ [s] })

/-! ### Concrete instances used by counterexamples and witnesses -/

/-- A semester-1 subject with no prerequisite. -/
def exSubjA : Subject := ⟨1, 1, "A101", "Alpha", 3, "Lecture", none⟩

/-- A semester-2 subject whose prerequisite is `exSubjA`. -/
def exSubjB : Subject := ⟨2, 2, "B102", "Beta", 3, "Lecture", some 1⟩

/-- A finalized passing grade for subject 1 in semester 1
(coursework 20 ≥ 13, attended, 20 + 40 ≥ 50). -/
def exGradePass1 : Grade := ⟨1, 1, 1, 20, 40, true, true, none⟩

/-- A finalized failing grade for subject 1 in semester 2
(coursework 20 ≥ 13, attended, 20 + 0 < 50: failed on the combined score). -/
def exGradeFail2 : Grade := ⟨1, 1, 2, 20, 0, true, true, none⟩

/-- Ledger for the C2 counterexample: the pass (semester 1) was inserted
before the fail (semester 2). -/
def exC2db : DB := ⟨[], [exSubjA, exSubjB], [exGradePass1, exGradeFail2]⟩

/-- A finalized coursework-fail grade for subject 1 in semester 1
(coursework 5 < 13). -/
def exGradeCwFail1 : Grade := ⟨1, 1, 1, 5, 0, true, true, none⟩

/-- A finalized passing grade for subject 1 in semester 2. -/
def exGradePass2 : Grade := ⟨1, 1, 2, 20, 40, true, true, none⟩

/-- Ledger for the C4 counterexample: the coursework fail (semester 1) was
inserted before the pass (semester 2). -/
def exC4db : DB := ⟨[], [exSubjA, exSubjB], [exGradeCwFail1, exGradePass2]⟩

/-- A grade that is not finalized (and whose coursework score 0 would count
as a coursework failure were it finalized). -/
def exGradeRaw : Grade := ⟨1, 1, 1, 0, 0, false, false, none⟩

/-- Ledger for the C2 witness: the only prerequisite grade row is the
non-finalized `exGradeRaw`. -/
def exC2nfdb : DB := ⟨[], [exSubjA, exSubjB], [exGradeRaw]⟩

/-- The empty database. -/
def emptyDB : DB := ⟨[], [], []⟩

/-- A lone grade row used by the C6 witness: student 1, subject 1,
semester 5, not finalized. -/
def exC6row : Grade := ⟨1, 1, 5, 3, 4, false, false, none⟩

/-- Database for the C6 witness. -/
def exC6db : DB := ⟨[], [], [exC6row]⟩

/-- Database with the single subject `exSubjB` (which has a prerequisite),
used by the C7 witness. -/
def exC7db : DB := ⟨[], [exSubjB], []⟩

/-- Database with the single subject `exSubjA`, used by the C5 and C9
witnesses. -/
def exCatA : DB := ⟨[], [exSubjA], []⟩

/-- Database for the C5 counterexample-free dependent case and the C10
witness: subject 2 depends on subject 1 and the student has a grade for
subject 2 in semester 2. -/
def exDepGrade : Grade := ⟨1, 2, 2, 0, 0, false, false, none⟩

/-- Database holding `exDepGrade`. -/
def exDepDB : DB := ⟨[], [exSubjA, exSubjB], [exDepGrade]⟩

/-! ### C1: outcome of a finalized grade, and the evaluation order -/

/-- C1: for every finalized grade the outcome is computed by checking the
conditions in the fixed source order — `"coursework"` iff the coursework
floor fails; `"final_attendance"` iff the floor holds but the final was not
attended; `"final"` iff the floor holds, the final was attended and the
combined score is below 50; `"no"` (passed) otherwise.  In particular, with
coursework ≥ 13 and the final attended, the grade passes iff
coursework + final ≥ 50 and otherwise fails with the combined-score
reason. -/
theorem C1_finalized_outcome_order (g : Grade) (hf : g.is_finalized = true) :
    (g.is_failed = "coursework" ↔ g.coursework < 13)
    ∧ (g.is_failed = "final_attendance" ↔
        13 ≤ g.coursework ∧ g.attended_final = false)
    ∧ (g.is_failed = "final" ↔
        13 ≤ g.coursework ∧ g.attended_final = true
          ∧ g.final + g.coursework < 50)
    ∧ (g.is_failed = "no" ↔
        13 ≤ g.coursework ∧ g.attended_final = true
          ∧ 50 ≤ g.coursework + g.final)
    ∧ (13 ≤ g.coursework → g.attended_final = true →
        ((g.is_failed = "no" ↔ 50 ≤ g.coursework + g.final)
          ∧ (g.coursework + g.final < 50 → g.is_failed = "final"))) := by
  have hadd : g.final + g.coursework = g.coursework + g.final := by ring
  unfold Grade.is_failed
  rw [hf]
  simp only [Bool.true_eq_false, if_false]
  rcases g.attended_final with _ | _ <;>
    split_ifs with h1 h2 h3 <;>
    simp_all

/-- Witness for C1 at a concrete finalized grade (coursework 20, final 40,
attended): the theorem yields that it passed. -/
theorem C1_witness :
    Grade.is_failed ⟨1, 1, 1, 20, 40, true, true, none⟩ = "no" :=
  ((C1_finalized_outcome_order ⟨1, 1, 1, 20, 40, true, true, none⟩
    rfl).2.2.2.1).mpr (by norm_num)

/-! ### C3: outcome of a non-finalized grade -/

/-- C3 counterexample: the code's derived outcome (`Grade.is_failed`) maps a
non-finalized grade and a finalized passing grade to the same token `"no"`,
so the outcome of a non-finalized grade is NOT one of five pairwise-distinct
values and is NOT distinguishable from `passed` by the outcome value. -/
theorem C3_counterexample :
    Grade.is_failed ⟨7, 8, 1, 0, 0, false, false, none⟩ = "no"
    ∧ Grade.is_failed ⟨7, 9, 1, 20, 40, true, true, none⟩ = "no" := by
  constructor
  · decide
  · norm_num [Grade.is_failed]

/-- C3 amended: for every grade with the finalized flag false the outcome is
`"no"` regardless of scores and attendance; the outcome function takes one
of only four values `"no"`, `"coursework"`, `"final_attendance"`, `"final"`,
and the not-finalized outcome coincides with the passed outcome `"no"` (it
is recoverable only from the finalized flag, not from the outcome value). -/
theorem C3_not_finalized_outcome (g : Grade) (h : g.is_finalized = false) :
    g.is_failed = "no"
    ∧ ∀ g' : Grade, g'.is_failed = "no" ∨ g'.is_failed = "coursework"
        ∨ g'.is_failed = "final_attendance" ∨ g'.is_failed = "final" := by
  constructor
  · simp [Grade.is_failed, h]
  · intro g'
    unfold Grade.is_failed
    split_ifs <;> simp

/-- Witness for C3 at a concrete non-finalized grade with high scores. -/
theorem C3_witness :
    Grade.is_failed ⟨1, 1, 1, 99, 99, true, false, none⟩ = "no"
    ∧ ∀ g' : Grade, g'.is_failed = "no" ∨ g'.is_failed = "coursework"
        ∨ g'.is_failed = "final_attendance" ∨ g'.is_failed = "final" :=
  C3_not_finalized_outcome ⟨1, 1, 1, 99, 99, true, false, none⟩ rfl

/-! ### C2: the prerequisite check on add -/

/-- C2 counterexample: student 1 has two grade rows for the prerequisite
(subject 1) before semester 3 — a pass in semester 1 inserted first and a
combined-score failure in semester 2 inserted second.  The most recent such
row (semester 2) is not a pass, so the claim says the check returns false;
the code inspects `rows[0]`, the first stored row, and returns true. -/
theorem C2_counterexample :
    db_check_prerequisite false false exC2db 1 2 3 = .ok true
    ∧ prereqRows exC2db 1 1 3 = [exGradePass1, exGradeFail2]
    ∧ (∀ g ∈ prereqRows exC2db 1 1 3, g.semester ≤ exGradeFail2.semester)
    ∧ exGradeFail2.is_failed = "final"
    ∧ exGradeFail2.is_failed ≠ "no" := by
  have e1 : db_get_subject_by_id false exC2db 2 = some exSubjB := by decide
  have e2 : prereqRows exC2db 1 1 3 = [exGradePass1, exGradeFail2] := by decide
  have e3 : exGradeFail2.is_failed = "final" := by
    norm_num [Grade.is_failed, exGradeFail2]
  refine ⟨?_, e2, by decide, e3, by rw [e3]; decide⟩
  simp only [db_check_prerequisite, e1, exSubjB, e2]
  norm_num [Grade.is_failed, exGradePass1]

/-- C2 amended: when the subject exists and names a prerequisite, the check
returns false iff the prerequisite query is empty; otherwise it decides by
the FIRST stored matching row (not the most recent), returning true iff that
row's `is_failed` is `"no"` — which also holds for a non-finalized row.
Matching rows are exactly the student's rows for the prerequisite subject at
a strictly earlier semester, and appending a grade row at the same or a
later semester never changes the result. -/
theorem C2_first_stored_row_decides (db : DB) (s subj : Nat) (sem : Int)
    (sr : Subject) (pid : Nat)
    (h1 : db_get_subject_by_id false db subj = some sr)
    (h2 : sr.prerequisite = some pid) (h3 : pid ≠ 0) :
    (prereqRows db s pid sem = [] →
      db_check_prerequisite false false db s subj sem = .ok false)
    ∧ (∀ g rest, prereqRows db s pid sem = g :: rest →
        db_check_prerequisite false false db s subj sem
          = .ok (g.is_failed == "no"))
    ∧ (∀ g ∈ prereqRows db s pid sem,
        g.student_id = s ∧ g.subject_id = pid ∧ g.semester < sem)
    ∧ (∀ g' : Grade, sem ≤ g'.semester →
        db_check_prerequisite false false
            ⟨db.students, db.subjects, db.grades ++ [g']⟩ s subj sem
          = db_check_prerequisite false false db s subj sem) := by
  refine ⟨?_, ?_, ?_, ?_⟩
  · intro hrows
    simp [db_check_prerequisite, h1, h2, h3, hrows]
  · intro g rest hrows
    simp [db_check_prerequisite, h1, h2, h3, hrows]
  · intro g hg
    simp only [prereqRows, List.mem_filter, Bool.and_eq_true, beq_iff_eq,
      decide_eq_true_eq] at hg
    exact ⟨hg.2.1.1.2, hg.2.1.2, hg.2.2⟩
  · intro g' hg'
    have e1 : db_get_subject_by_id false
        ⟨db.students, db.subjects, db.grades ++ [g']⟩ subj = some sr := h1
    have hnot : ¬ (g'.semester < sem) := not_lt.mpr hg'
    have e2 : prereqRows ⟨db.students, db.subjects, db.grades ++ [g']⟩
        s pid sem = prereqRows db s pid sem := by
      simp [prereqRows, List.filter_append, hnot, subjectExists]
    simp [db_check_prerequisite, e1, h1, h2, h3, e2]

/-- Witness for the amended C2 at a concrete input: the only prerequisite
row is non-finalized (its `is_failed` is `"no"`), and the check returns
true. -/
theorem C2_witness :
    db_check_prerequisite false false exC2nfdb 1 2 2 = .ok true := by
  have h := (C2_first_stored_row_decides exC2nfdb 1 2 2 exSubjB 1
    (by decide) rfl (by decide)).2.1 exGradeRaw [] (by decide)
  rw [h]
  simp [Grade.is_failed, exGradeRaw]

/-! ### C4: positive and negative cases of the prerequisite check -/

/-- C4 counterexample: student 1 holds a passed, finalized grade for the
prerequisite (subject 1) in semester 2 < 3, so the claim says the check for
subject 2 in semester 3 returns true; but an earlier-inserted coursework
failure for the same prerequisite is `rows[0]`, and the code returns
false. -/
theorem C4_counterexample :
    db_check_prerequisite false false exC4db 1 2 3 = .ok false
    ∧ exGradePass2 ∈ exC4db.grades
    ∧ exGradePass2.student_id = 1 ∧ exGradePass2.subject_id = 1
    ∧ exGradePass2.semester < 3
    ∧ exGradePass2.is_finalized = true
    ∧ exGradePass2.is_failed = "no" := by
  have e1 : db_get_subject_by_id false exC4db 2 = some exSubjB := by decide
  have e2 : prereqRows exC4db 1 1 3 = [exGradeCwFail1, exGradePass2] := by
    decide
  have e3 : exGradeCwFail1.is_failed = "coursework" := by decide
  have e4 : ((("coursework" : String)) == "no") = false := by decide
  refine ⟨?_, by decide, by decide, by decide, by decide, by decide, ?_⟩
  · simp only [db_check_prerequisite, e1, exSubjB, e2, e3, e4]
    norm_num
  · norm_num [Grade.is_failed, exGradePass2]

/-- C4 amended: with an existing subject naming a nonzero prerequisite, the
check returns true whenever the FIRST stored matching row has `is_failed`
equal to `"no"` (the claim's "some passed grade exists" is not enough), and
it returns false whenever every grade row the student has for the
prerequisite sits at a semester ≥ the requested one (in particular when the
prerequisite was never graded). -/
theorem C4_pass_before_gate (db : DB) (s subj : Nat) (sem : Int)
    (sr : Subject) (pid : Nat)
    (h1 : db_get_subject_by_id false db subj = some sr)
    (h2 : sr.prerequisite = some pid) (h3 : pid ≠ 0) :
    (∀ g rest, prereqRows db s pid sem = g :: rest → g.is_failed = "no" →
      db_check_prerequisite false false db s subj sem = .ok true)
    ∧ ((∀ g ∈ db.grades, g.student_id = s → g.subject_id = pid →
          sem ≤ g.semester) →
      db_check_prerequisite false false db s subj sem = .ok false) := by
  constructor
  · intro g rest hrows hno
    simp [db_check_prerequisite, h1, h2, h3, hrows, hno]
  · intro hall
    have hrows : prereqRows db s pid sem = [] := by
      rw [prereqRows, List.filter_eq_nil_iff]
      intro g hg
      simp only [Bool.and_eq_true, beq_iff_eq, decide_eq_true_eq]
      rintro ⟨⟨⟨-, hs⟩, hpid⟩, hlt⟩
      exact absurd hlt (not_lt.mpr (hall g hg hs hpid))
    simp [db_check_prerequisite, h1, h2, h3, hrows]

/-- Witness for the amended C4: the prerequisite's only grade row sits at
semester 1, so the check for semester 1 returns false. -/
theorem C4_witness :
    db_check_prerequisite false false exC2nfdb 1 2 1 = .ok false :=
  (C4_pass_before_gate exC2nfdb 1 2 1 exSubjB 1 (by decide) rfl
    (by decide)).2 (by decide)

/-! ### C9: an unknown subject never blocks grade addition -/

/-- C9: when no catalog row carries the requested subject id, the
prerequisite check returns true — the same behaviour as for a subject whose
prerequisite column is NULL. -/
theorem C9_unknown_subject (db : DB) (s subj : Nat) (sem : Int)
    (h : ∀ x ∈ db.subjects, x.id ≠ subj) :
    db_check_prerequisite false false db s subj sem = .ok true
    ∧ ∀ (db' : DB) (s' subj' : Nat) (sem' : Int) (sr : Subject),
        db_get_subject_by_id false db' subj' = some sr →
        sr.prerequisite = none →
        db_check_prerequisite false false db' s' subj' sem' = .ok true := by
  constructor
  · have hfind : db.subjects.find? (fun x => x.id == subj) = none := by
      rw [List.find?_eq_none]
      intro x hx
      simp [h x hx]
    simp [db_check_prerequisite, db_get_subject_by_id, hfind]
  · intro db' s' subj' sem' sr hsr hpre
    simp [db_check_prerequisite, hsr, hpre]

/-- Witness for C9: the catalog holds only subject 1, and the check for the
unknown subject 2 returns true. -/
theorem C9_witness :
    db_check_prerequisite false false exCatA 1 2 1 = .ok true :=
  (C9_unknown_subject exCatA 1 2 1 (by decide)).1

/-! ### C5: the dependent-protection check on delete -/

/-- C5: the delete gate returns true when no subject lists the given subject
as its prerequisite; otherwise it returns false iff the student holds a
grade for some DIRECT dependent subject (one whose prerequisite column
equals the subject) at a semester strictly greater than the one being
deleted — dependent grades at earlier or equal semesters never block, and
the dependent lookup is one level only. -/
theorem C5_dependent_protection (db : DB) (s subj : Nat) (sem : Int) :
    ((∀ x ∈ db.subjects, x.prerequisite ≠ some subj) →
      db_check_is_prerequisite_for_later_semester false db s subj sem
        = .ok true)
    ∧ ((∃ x ∈ db.subjects, x.prerequisite = some subj) →
        (db_check_is_prerequisite_for_later_semester false db s subj sem
            = .ok false
          ↔ ∃ g ∈ db.grades, g.student_id = s ∧ sem < g.semester
              ∧ ∃ x ∈ db.subjects, x.prerequisite = some subj
                ∧ g.subject_id = x.id)) := by
  have key : ∀ g, g ∈ laterDependentGrades db s subj sem ↔
      (g ∈ db.grades ∧ g.student_id = s ∧ sem < g.semester
        ∧ ∃ x ∈ db.subjects, x.prerequisite = some subj
          ∧ g.subject_id = x.id) := by
    intro g
    simp only [laterDependentGrades, dependentSubjects, List.mem_filter,
      Bool.and_eq_true, beq_iff_eq, decide_eq_true_eq, List.elem_iff,
      List.mem_map]
    constructor
    · rintro ⟨hmem, ⟨hs, x, ⟨⟨hx, hpre⟩, hid⟩⟩, hlt⟩
      exact ⟨hmem, hs, hlt, x, hx, hpre, hid.symm⟩
    · rintro ⟨hmem, hs, hlt, x, hx, hpre, hid⟩
      exact ⟨hmem, ⟨hs, x, ⟨⟨hx, hpre⟩, hid.symm⟩⟩, hlt⟩
  constructor
  · intro h
    have hdep : dependentSubjects db subj = [] := by
      rw [dependentSubjects, List.filter_eq_nil_iff]
      intro x hx
      simp [h x hx]
    simp [db_check_is_prerequisite_for_later_semester, hdep]
  · rintro ⟨x0, hx0, hpre0⟩
    have hmem : x0 ∈ dependentSubjects db subj :=
      List.mem_filter.mpr ⟨hx0, by simp [hpre0]⟩
    have hne : (dependentSubjects db subj).isEmpty = false :=
      List.isEmpty_eq_false.mpr (List.ne_nil_of_mem hmem)
    simp only [db_check_is_prerequisite_for_later_semester, hne,
      Bool.false_eq_true, if_false, Except.ok.injEq]
    rw [show ∀ b : Bool, (b = false) = (¬ b = true) from fun b => by simp]
    rw [beq_iff_eq, List.length_eq_zero]
    constructor
    · intro hne2
      obtain ⟨a, ha⟩ := List.exists_mem_of_ne_nil _ hne2
      obtain ⟨h1, h2⟩ := (key a).mp ha
      exact ⟨a, h1, h2⟩
    · rintro ⟨g, hg, hs, hlt, hx⟩ hnil
      exact absurd ((key g).mpr ⟨hg, hs, hlt, hx⟩) (by simp [hnil])

/-- Witness for C5: subject 1 has no dependents in the one-subject catalog,
so deleting its grade is allowed. -/
theorem C5_witness :
    db_check_is_prerequisite_for_later_semester false exCatA 1 1 1
      = .ok true :=
  (C5_dependent_protection exCatA 1 1 1).1 (by decide)

/-! ### C6: updating a grade -/

/-- Helper: a conditional rewrite mapped over rows none of which satisfy the
condition leaves the list unchanged. -/
theorem map_update_of_no_match {α : Type} (l : List α) (p : α → Bool)
    (f : α → α) (h : ∀ g ∈ l, ¬ p g = true) :
    l.map (fun g => if p g then f g else g) = l := by
  induction l with
  | nil => rfl
  | cons a tl ih =>
    have ha := h a (List.mem_cons_self a tl)
    simp [ha, ih (fun g hg => h g (List.mem_cons_of_mem a hg))]

/-- C6 counterexample: on the empty ledger, `db_update_grade` matches no row
yet reports success (`True`) — it does not fail with `NotFound` as the claim
states (the affected row count is never inspected). -/
theorem C6_counterexample :
    db_update_grade false emptyDB 1 1 1 10 10 true true (some 5)
      = (true, emptyDB) := by decide

/-- C6 amended: `db_update_grade` reports success even when no grade row
exists for the given student and subject, leaving the ledger unchanged;
when exactly one row matches — the match is on (student, subject) only,
ignoring the row's semester — it reports success, rewrites that row with the
new semester, scores and flags and a refreshed timestamp, and leaves
non-matching rows in place. -/
theorem C6_update_matches_student_subject (db : DB) (s subj : Nat)
    (sem : Int) (cw fin : Rat) (att fz : Bool) (now : Option Nat) :
    (db.grades.filter
        (fun g => g.student_id == s && g.subject_id == subj) = [] →
      db_update_grade false db s subj sem cw fin att fz now = (true, db))
    ∧ (∀ g0, db.grades.filter
          (fun g => g.student_id == s && g.subject_id == subj) = [g0] →
        (db_update_grade false db s subj sem cw fin att fz now).1 = true
        ∧ { g0 with semester := sem, coursework := cw, final := fin
                    attended_final := att, is_finalized := fz
                    last_updated := now }
            ∈ (db_update_grade false db s subj sem cw fin att fz
                now).2.grades
        ∧ ∀ g ∈ db.grades,
            (g.student_id == s && g.subject_id == subj) = false →
              g ∈ (db_update_grade false db s subj sem cw fin att fz
                now).2.grades) := by
  constructor
  · intro hf
    have hall := List.filter_eq_nil_iff.mp hf
    have hmap := map_update_of_no_match db.grades
      (fun g => g.student_id == s && g.subject_id == subj)
      (fun g => { g with semester := sem, coursework := cw, final := fin
                         attended_final := att, is_finalized := fz
                         last_updated := now })
      hall
    unfold db_update_grade
    rw [hmap, hf]
    norm_num
  · intro g0 hf
    have hg0 : g0 ∈ db.grades ∧
        (g0.student_id == s && g0.subject_id == subj) = true :=
      List.mem_filter.mp (by rw [hf]; exact List.mem_cons_self g0 [])
    have hres : db_update_grade false db s subj sem cw fin att fz now
        = (true, { db with grades := db.grades.map (fun g =>
            if g.student_id == s && g.subject_id == subj then
              { g with semester := sem, coursework := cw, final := fin
                       attended_final := att, is_finalized := fz
                       last_updated := now }
            else g) }) := by
      unfold db_update_grade
      rw [hf]
      norm_num
    refine ⟨by rw [hres], ?_, ?_⟩
    · rw [hres]
      refine List.mem_map.mpr ⟨g0, hg0.1, ?_⟩
      rw [if_pos hg0.2]
    · intro g hg hfalse
      rw [hres]
      refine List.mem_map.mpr ⟨g, hg, ?_⟩
      rw [if_neg (by rw [hfalse]; exact Bool.false_ne_true)]

/-- Witness for the amended C6: the only row has semester 5, the update is
keyed with semester 2, and the row is still matched and rewritten (with the
refreshed timestamp), success being reported. -/
theorem C6_witness :
    (db_update_grade false exC6db 1 1 2 10 20 true true (some 9)).1 = true
    ∧ (⟨1, 1, 2, 10, 20, true, true, some 9⟩ : Grade)
        ∈ (db_update_grade false exC6db 1 1 2 10 20 true true
            (some 9)).2.grades
    ∧ ∀ g ∈ exC6db.grades,
        (g.student_id == 1 && g.subject_id == 1) = false →
          g ∈ (db_update_grade false exC6db 1 1 2 10 20 true true
            (some 9)).2.grades :=
  (C6_update_matches_student_subject exC6db 1 1 2 10 20 true true
    (some 9)).2 exC6row (by decide)

/-! ### C7: handling of store-level failures -/

/-- C7 counterexample: a store failure raised inside
`db_check_is_prerequisite_for_later_semester` — which has no `try/except` —
escapes to the caller as a raw error instead of being converted to a
boolean or typed-failure result. -/
theorem C7_counterexample :
    db_check_is_prerequisite_for_later_semester true emptyDB 1 1 1
      = .error storeErrorMsg := rfl

/-- C7 amended: the modelled ledger and roster operations (`db_add_grade`,
`db_update_grade`, `db_del_grade`, `db_add_student`) catch store-level
failures at the operation boundary and return `false` with the state
unchanged, but the two gate checks do not: a store failure during
`db_check_prerequisite`'s grade query (reached whenever the subject exists
and has a nonzero prerequisite) and any store failure during
`db_check_is_prerequisite_for_later_semester` escape to the caller as raw
errors. -/
theorem C7_gate_checks_leak_store_errors (db : DB) (s subj : Nat)
    (sem : Int) (cw fin : Rat) (att fz : Bool) (now : Option Nat)
    (st : Student) :
    db_add_grade true db s subj sem cw fin att fz now = (false, db)
    ∧ db_update_grade true db s subj sem cw fin att fz now = (false, db)
    ∧ db_del_grade true db s subj sem = (false, db)
    ∧ db_add_student true db st = (false, db)
    ∧ (∀ sr pid, db_get_subject_by_id false db subj = some sr →
        sr.prerequisite = some pid → pid ≠ 0 →
        db_check_prerequisite false true db s subj sem
          = .error storeErrorMsg)
    ∧ db_check_is_prerequisite_for_later_semester true db s subj sem
        = .error storeErrorMsg := by
  refine ⟨rfl, rfl, rfl, rfl, ?_, rfl⟩
  intro sr pid h1 h2 h3
  simp [db_check_prerequisite, h1, h2, h3]

/-- Witness for the amended C7: subject 2 exists and has prerequisite 1, and
a store failure during the prerequisite query escapes. -/
theorem C7_witness :
    db_check_prerequisite false true exC7db 1 2 1
      = .error storeErrorMsg :=
  (C7_gate_checks_leak_store_errors exC7db 1 2 1 0 0 false false none
      ⟨none, [], [], [], [], [], [], [], [], [], [], none, [], 0, [], [],
        [], [], 0, [], [], 0, 0, [], []⟩).2.2.2.2.1
    exSubjB 1 (by decide) rfl (by decide)

/-! ### C10: deleting an absent grade -/

/-- C10: `db_del_grade` reports success whether or not any row matches the
(student, subject, semester) triple, never touches the student and subject
tables, keeps every grade row whose key triple differs, adds no rows, and
leaves the ledger entirely unchanged when no row matches — so deleting an
absent grade is indistinguishable at the interface from deleting an
existing one. -/
theorem C10_delete_reports_success (db : DB) (s subj : Nat) (sem : Int) :
    (db_del_grade false db s subj sem).1 = true
    ∧ (db_del_grade false db s subj sem).2.students = db.students
    ∧ (db_del_grade false db s subj sem).2.subjects = db.subjects
    ∧ (∀ g ∈ db.grades, ¬ gradeKeyMatches g s subj sem = true →
        g ∈ (db_del_grade false db s subj sem).2.grades)
    ∧ (∀ g ∈ (db_del_grade false db s subj sem).2.grades, g ∈ db.grades)
    ∧ ((∀ g ∈ db.grades, ¬ gradeKeyMatches g s subj sem = true) →
        (db_del_grade false db s subj sem).2 = db) := by
  refine ⟨rfl, rfl, rfl, ?_, ?_, ?_⟩
  · intro g hg hne
    exact List.mem_filter.mpr ⟨hg, by simp_all⟩
  · intro g hg
    exact (List.mem_filter.mp hg).1
  · intro hall
    have hfil : db.grades.filter
        (fun g => !(gradeKeyMatches g s subj sem)) = db.grades := by
      rw [List.filter_eq_self]
      intro g hg
      simp [hall g hg]
    show DB.mk db.students db.subjects
      (db.grades.filter (fun g => !(gradeKeyMatches g s subj sem))) = db
    rw [hfil]

/-- Witness for C10: the only grade row is (student 1, subject 2,
semester 2); deleting the absent triple (1, 1, 1) reports success and
leaves the database unchanged. -/
theorem C10_witness :
    (db_del_grade false exDepDB 1 1 1).1 = true
    ∧ (db_del_grade false exDepDB 1 1 1).2 = exDepDB :=
  ⟨(C10_delete_reports_success exDepDB 1 1 1).1,
    (C10_delete_reports_success exDepDB 1 1 1).2.2.2.2.2 (by decide)⟩

/-! ### C8: name normalization on roster registration -/

/-- Helper: `dropWhile` skips over a fully-satisfying prefix. -/
theorem dropWhile_append_of_all {p : Char → Bool} (a b : List Char)
    (h : ∀ c ∈ a, p c = true) :
    (a ++ b).dropWhile p = b.dropWhile p := by
  induction a with
  | nil => rfl
  | cons c cs ih =>
    simp [List.dropWhile_cons, h c (List.mem_cons_self c cs),
      ih (fun x hx => h x (List.mem_cons_of_mem c hx))]

/-- Helper: splitting an all-whitespace string yields no words. -/
theorem splitAux_nil_of_all_space (b : List Char)
    (h : ∀ c ∈ b, isPySpace c = true) : splitAux b [] = [] := by
  induction b with
  | nil => rfl
  | cons c cs ih =>
    have hc := h c (List.mem_cons_self c cs)
    simp [splitAux, hc, ih (fun x hx => h x (List.mem_cons_of_mem c hx))]

/-- Helper: trailing whitespace never contributes a word, whatever the
accumulator state. -/
theorem splitAux_append_space (l b : List Char) (acc : List Char)
    (h : ∀ c ∈ b, isPySpace c = true) :
    splitAux (l ++ b) acc = splitAux l acc := by
  induction l generalizing acc with
  | nil =>
    simp only [List.nil_append]
    rcases b with _ | ⟨c, cs⟩
    · rfl
    · have hc := h c (List.mem_cons_self c cs)
      have hcs := splitAux_nil_of_all_space cs
        (fun x hx => h x (List.mem_cons_of_mem c hx))
      rcases acc with _ | ⟨a, as⟩
      · simp [splitAux, hc, hcs]
      · simp [splitAux, hc, hcs]
  | cons c cs ih =>
    simp only [List.cons_append, splitAux]
    by_cases hc : isPySpace c
    · simp [hc, ih]
    · simp [hc, ih]

/-- Helper: leading whitespace never contributes a word. -/
theorem splitAux_space_leading (a l : List Char)
    (h : ∀ c ∈ a, isPySpace c = true) :
    splitAux (a ++ l) [] = splitAux l [] := by
  induction a with
  | nil => rfl
  | cons c cs ih =>
    have hc := h c (List.mem_cons_self c cs)
    simp [splitAux, hc, ih (fun x hx => h x (List.mem_cons_of_mem c hx))]

/-- Helper: every string is its stripped core surrounded by whitespace. -/
theorem strip_decomposition (l : List Char) :
    ∃ pre post, (∀ c ∈ pre, isPySpace c = true)
      ∧ (∀ c ∈ post, isPySpace c = true)
      ∧ l = pre ++ pyStrip l ++ post := by
  refine ⟨l.takeWhile isPySpace,
    ((l.dropWhile isPySpace).reverse.takeWhile isPySpace).reverse,
    ?_, ?_, ?_⟩
  · intro c hc
    exact List.mem_takeWhile_imp hc
  · intro c hc
    rw [List.mem_reverse] at hc
    exact List.mem_takeWhile_imp hc
  · conv_lhs => rw [← List.takeWhile_append_dropWhile (p := isPySpace)
      (l := l)]
    rw [List.append_assoc]
    congr 1
    calc l.dropWhile isPySpace
        = ((l.dropWhile isPySpace).reverse).reverse := by
          rw [List.reverse_reverse]
      _ = ((l.dropWhile isPySpace).reverse.takeWhile isPySpace
            ++ (l.dropWhile isPySpace).reverse.dropWhile isPySpace).reverse
          := by
          rw [List.takeWhile_append_dropWhile]
      _ = pyStrip l
            ++ ((l.dropWhile isPySpace).reverse.takeWhile isPySpace).reverse
          := by
          rw [List.reverse_append]
          rfl

/-- Helper: stripping before splitting changes nothing — `str.split()`
already discards surrounding whitespace. -/
theorem pySplit_strip (l : List Char) : pySplit (pyStrip l) = pySplit l := by
  obtain ⟨pre, post, hpre, hpost, hdecomp⟩ := strip_decomposition l
  conv_rhs => rw [hdecomp]
  simp only [pySplit]
  rw [List.append_assoc, splitAux_space_leading pre _ hpre,
    splitAux_append_space _ post [] hpost]

/-- Helper: `capitalize_name` is exactly per-word capitalization of the
whitespace-separated words, joined by single spaces. -/
theorem capitalize_name_words (l : PyStr) :
    capitalize_name l = joinSpace ((pySplit l).map pyCapitalize) := by
  rcases l with _ | ⟨c, cs⟩
  · rfl
  · simp only [capitalize_name, List.isEmpty_cons, Bool.false_eq_true,
      if_false, pySplit_strip]

/-- Helper: surrounding whitespace never affects `capitalize_name`. -/
theorem capitalize_name_trims (pre mid post : PyStr)
    (hpre : ∀ c ∈ pre, isPySpace c = true)
    (hpost : ∀ c ∈ post, isPySpace c = true) :
    capitalize_name (pre ++ mid ++ post) = capitalize_name mid := by
  rw [capitalize_name_words, capitalize_name_words]
  congr 2
  simp only [pySplit]
  rw [List.append_assoc, splitAux_space_leading pre _ hpre,
    splitAux_append_space _ post [] hpost]

/-- C8: roster registration stores `capitalize_name` of the raw `name` and
`mother_name` inputs (and the inserted row carries the constructor's
fields verbatim); `capitalize_name` trims surrounding whitespace and
capitalizes each whitespace-separated word — first letter uppercased, the
rest lowercased — joining the words with single spaces. -/
theorem C8_roster_title_case (rawName rawMother : PyStr) (idv : Option Nat)
    (gender nationality birthday ethnicity province card phone faculty
      major : PyStr) (year : Option Int) (sched : PyStr) (yf : Int)
    (adm1 adm2 dom grad : PyStr) (res : Rat) (fphone : PyStr)
    (dis scn : Int) (d1 d2 : PyStr) :
    (mkStudent idv rawName gender nationality birthday ethnicity province
        card phone faculty major year sched yf adm1 adm2 dom grad res
        rawMother fphone dis scn d1 d2).name = capitalize_name rawName
    ∧ (mkStudent idv rawName gender nationality birthday ethnicity province
        card phone faculty major year sched yf adm1 adm2 dom grad res
        rawMother fphone dis scn d1 d2).mother_name
        = capitalize_name rawMother
    ∧ (∀ (db : DB) (st : Student), (db_add_student false db st).1 = true →
        (db_add_student false db st).2.students = db.students ++ [st])
    ∧ (∀ l : PyStr, capitalize_name l
        = joinSpace ((pySplit l).map pyCapitalize))
    ∧ (∀ pre mid post : PyStr, (∀ c ∈ pre, isPySpace c = true) →
        (∀ c ∈ post, isPySpace c = true) →
        capitalize_name (pre ++ mid ++ post) = capitalize_name mid)
    ∧ (∀ c cs, pyCapitalize (c :: cs) = c.toUpper :: cs.map Char.toLower)
    := by
  refine ⟨rfl, rfl, ?_, capitalize_name_words, capitalize_name_trims,
    fun c cs => rfl⟩
  intro db st h
  by_cases hdup : db.students.any (fun t =>
      t.unified_card_id == st.unified_card_id || t.phone == st.phone)
  · simp [db_add_student, hdup] at h
  · simp [db_add_student, hdup]

/-- Witness for C8: a concrete name with surrounding whitespace normalizes
to the same value as the trimmed name. -/
theorem C8_witness :
    capitalize_name (" ".toList ++ "joHN dOe".toList ++ " ".toList)
      = capitalize_name ("joHN dOe".toList) :=
  (C8_roster_title_case [] [] none [] [] [] [] [] [] [] [] [] none [] 0
      [] [] [] [] 0 [] 0 0 [] []).2.2.2.2.1
    (" ".toList) ("joHN dOe".toList) (" ".toList) (by decide) (by decide)
